import Mathlib

/-!
Shallow embedding of the material and outsourced-production ledger of the
camisas repository (src/camisas/models.py), together with theorems checking
the natural-language specification against it.

Modelling conventions:
- Python Decimal values are modelled as rational numbers.  Where the source
  calls Decimal.quantize with a pattern of d decimal places, the model applies
  quantizeDec d, which rounds half-to-even (the Decimal default).  Decimal
  division is modelled as exact rational division.
- Django model rows become Lean structures; foreign keys become Nat ids, and
  the tables touched by an operation are gathered into a World structure whose
  maps (Nat to row) are total functions.
- Python None becomes Option.none; the "x or 0" coercions in the source are
  reproduced with Option.getD.
- A Python method that can raise becomes a function into Except; a method that
  runs without an enclosing transaction and can raise mid-way returns the
  partially mutated state explicitly (see processar).
-/

namespace Camisas

/- The rational arithmetic of the library is sealed against unfolding; the
concrete evaluations below need it to reduce. -/
attribute [local semireducible] Rat.add Rat.sub Rat.mul Rat.inv

/-! ## Decimal arithmetic model -/

/-- Round a rational to the nearest integer, ties to even
(the default rounding of Python Decimal.quantize). -/
def roundHalfEven (q : ℚ) : ℤ :=
  let n : ℤ := q.floor
  let frac : ℚ := q - n
  if frac < 1/2 then n
  else if 1/2 < frac then n + 1
  else if n % 2 = 0 then n else n + 1

/-- Model of Decimal.quantize to d decimal places with half-even rounding. -/
def quantizeDec (d : ℕ) (q : ℚ) : ℚ :=
  (roundHalfEven (q * 10 ^ d) : ℚ) / 10 ^ d

/-! ## MovimentoEstoque (stock movement audit record) -/

/-- Embeds the MovimentoEstoque row: direction "E" (in) or "S" (out),
the moved quantity, the unit cost recorded, and the optional links to the
insumo or variacao moved and to the costureira and remessa that caused it. -/
structure MovimentoEstoque where
  tipo : String
  insumoId : Option Nat
  variacaoId : Option Nat
  quantidade : ℚ
  custo_unit : ℚ
  costureiraId : Option Nat
  remessaId : Option Nat
  observacao : String
deriving Repr, DecidableEq

/-! ## Insumo (raw material) -/

/-- Embeds the Insumo row: the category name (through the categoria foreign
key), the current stock and the weighted average cost. -/
structure Insumo where
  id : Nat
  categoriaNome : String
  estoque_atual : ℚ
  custo_medio : ℚ
deriving Repr, DecidableEq

/-- The ValueError raised by Insumo.saida when stock is insufficient. -/
inductive LedgerError where
  | estoqueInsuficiente
deriving Repr, DecidableEq

/-- Embeds Insumo.entrada (models.py lines 200 to 215): coerce None inputs to
zero, recompute the weighted average cost when the resulting stock is
positive, add the quantity to the stock, and create one "E" movement.
There is no validation and no error path. -/
def Insumo.entrada (i : Insumo) (quantidade custo_unit : Option ℚ)
    (observacao : String) (costureiraId remessaId : Option Nat) :
    Insumo × MovimentoEstoque :=
  let q : ℚ := quantidade.getD 0
  let c : ℚ := custo_unit.getD 0
  let total_ant := i.estoque_atual * i.custo_medio
  let total_novo := q * c
  let novo_estoque := i.estoque_atual + q
  let custo' := if 0 < novo_estoque then (total_ant + total_novo) / novo_estoque
                else i.custo_medio
  ({ i with estoque_atual := novo_estoque, custo_medio := custo' },
   { tipo := "E", insumoId := some i.id, variacaoId := none, quantidade := q,
     custo_unit := c, costureiraId := costureiraId, remessaId := remessaId,
     observacao := observacao })

/-- Embeds Insumo.saida (models.py lines 217 to 228): coerce None to zero,
raise when the quantity exceeds the current stock, otherwise decrement the
stock and create one "S" movement valued at the current average cost. -/
def Insumo.saida (i : Insumo) (quantidade : Option ℚ)
    (observacao : String) (costureiraId remessaId : Option Nat) :
    Except LedgerError (Insumo × MovimentoEstoque) :=
  let q : ℚ := quantidade.getD 0
  if i.estoque_atual < q then .error .estoqueInsuficiente
  else .ok ({ i with estoque_atual := i.estoque_atual - q },
    { tipo := "S", insumoId := some i.id, variacaoId := none, quantidade := q,
      custo_unit := i.custo_medio, costureiraId := costureiraId,
      remessaId := remessaId, observacao := observacao })

/-- The state of the insumo after a saida call, identifying the
rolled-back state on failure with the starting state. -/
def Insumo.applySaida (i : Insumo) (q : ℚ) : Insumo :=
  match i.saida (some q) "" none none with
  | .error _ => i
  | .ok (i', _) => i'

/-- The movement generated by a successful saida call, if any. -/
def Insumo.saidaMov (i : Insumo) (q : ℚ) : Option MovimentoEstoque :=
  match i.saida (some q) "" none none with
  | .error _ => none
  | .ok (_, m) => some m

/-! ## Sequences of ledger operations on one material -/

/-- One call against the material ledger of a single insumo. -/
inductive LedgerOp where
  | entradaOp (q c : ℚ)
  | saidaOp (q : ℚ)
deriving Repr, DecidableEq

/-- Apply one ledger call, keeping the prior state when saida fails. -/
def applyOp (i : Insumo) : LedgerOp → Insumo
  | .entradaOp q c => (i.entrada (some q) (some c) "" none none).1
  | .saidaOp q => i.applySaida q

/-- Run a sequence of ledger calls in order. -/
def runOps (i : Insumo) : List LedgerOp → Insumo
  | [] => i
  | op :: rest => runOps (applyOp i op) rest

/-- A receive call is valid when its quantity is positive; issue calls are
not restricted (a failing issue leaves the state unchanged). -/
def ValidOp : LedgerOp → Prop
  | .entradaOp q _ => 0 < q
  | .saidaOp _ => True

/-- Whether an Except value is a success. -/
def isOkE {ε α : Type _} : Except ε α → Bool
  | .ok _ => true
  | .error _ => false

/-- Embeds the Python normalization used by the phase resolver: strip
surrounding whitespace, then lowercase.  Python str.lower is modelled with
the character lowercasing of Lean, which agrees with it on the category
names involved (ASCII letters are lowercased; a lowercase accented letter is
kept as is). -/
def pyNormalize (s : String) : String :=
  ⟨(((s.data.dropWhile Char.isWhitespace).reverse.dropWhile
      Char.isWhitespace).reverse).map Char.toLower⟩

/-- Embeds _resolver_fase_item (models.py lines 334 to 339): a nonempty
configuration other than AUTO is returned unchanged (the empty string is
falsy in Python, so it falls through to the heuristic); otherwise the
heuristic returns CORTE exactly when the stripped, lowercased category name
equals "tecido", and COSTURA for everything else. -/
def _resolver_fase_item (insumo_categoria_nome : String) (fase_config : String) : String :=
  if fase_config ≠ "" ∧ fase_config ≠ "AUTO" then fase_config
  else if pyNormalize insumo_categoria_nome = "tecido" then "CORTE" else "COSTURA"

/-- Embeds the FichaTecnicaItem row: one bill-of-materials entry of a
variant, with its material, quantity per unit and configured phase. -/
structure FichaTecnicaItem where
  insumoId : Nat
  quantidade : ℚ
  fase : String
deriving Repr, DecidableEq

/-- Embeds the VariacaoProduto row together with its ficha (BOM) entries. -/
structure VariacaoProduto where
  id : Nat
  estoque_atual : ℚ
  custo_unitario : ℚ
  preco_sugerido : ℚ
  ficha : List FichaTecnicaItem
deriving Repr, DecidableEq

/-- Embeds the Costureira row: the three per-piece base prices. -/
structure Costureira where
  id : Nat
  preco_corte_por_peca : ℚ
  preco_costura_por_peca : ℚ
  preco_correcao_por_peca : ℚ
deriving Repr, DecidableEq

/-- Embeds the RemessaItem row: the planned quantity, the four returned
buckets and the optional per-line price override (zero means inherit). -/
structure RemessaItem where
  variacaoId : Nat
  qtd_prevista : ℚ
  qtd_ok : ℚ
  qtd_perda : ℚ
  qtd_extravio : ℚ
  qtd_devolvida : ℚ
  preco_unit : ℚ
deriving Repr, DecidableEq

/-- Embeds the Remessa row with its line items (itens). -/
structure Remessa where
  id : Nat
  numero : String
  costureiraId : Nat
  tipo : String
  produtoId : Option Nat
  kg_enviados : ℚ
  recebido_em : Option Nat
  status : String
  itens : List RemessaItem
deriving Repr, DecidableEq

/-- Embeds RemessaItem.saldo (models.py lines 931 to 934): planned quantity
minus the four returned buckets, quantized to 2 decimals. -/
def RemessaItem.saldo (it : RemessaItem) : ℚ :=
  quantizeDec 2 (it.qtd_prevista
    - (it.qtd_ok + it.qtd_perda + it.qtd_extravio + it.qtd_devolvida))

/-- Embeds Remessa.atualizar_status_por_itens (models.py lines 769 to 773):
status is PARCIAL when received and the aggregate balance is positive,
CONCLUIDO when received and the aggregate balance is nonpositive, and
ENVIADA when not received. -/
def Remessa.atualizar_status_por_itens (r : Remessa) : Remessa :=
  let saldo_total : ℚ := (r.itens.map RemessaItem.saldo).sum
  { r with status :=
      if r.recebido_em.isSome ∧ 0 < saldo_total then "PARCIAL"
      else if r.recebido_em.isSome ∧ saldo_total ≤ 0 then "CONCLUIDO"
      else "ENVIADA" }

/-- Embeds Remessa.gerar_remessa_posterior (models.py lines 867 to 887): a
new shipment with the same produto, the costureira override or the same
costureira, the given tipo, and one line per source line whose planned
quantity is the source line ok quantity; the fresh id and numero stand for
the database-generated primary key and number. -/
def Remessa.gerar_remessa_posterior (r : Remessa) (tipo : String)
    (costureira : Option Nat) (freshId : Nat) (freshNumero : String) : Remessa :=
  { id := freshId, numero := freshNumero,
    costureiraId := costureira.getD r.costureiraId, tipo := tipo,
    produtoId := r.produtoId, kg_enviados := 0, recebido_em := none,
    status := "ENVIADA",
    itens := r.itens.map (fun it =>
      { variacaoId := it.variacaoId, qtd_prevista := it.qtd_ok, qtd_ok := 0,
        qtd_perda := 0, qtd_extravio := 0, qtd_devolvida := 0, preco_unit := 0 }) }

/-- Embeds the OrdemProducao row: variant, quantity and the two extra costs. -/
structure OrdemProducao where
  id : Nat
  variacaoId : Nat
  quantidade : ℚ
  custo_mao_de_obra : ℚ
  custo_indireto_rateado : ℚ
deriving Repr, DecidableEq

/-- Embeds the PagamentoCostureira row keyed by one remessa. -/
structure PagamentoCostureira where
  costureiraId : Nat
  valor_total : ℚ
  status : String
deriving Repr, DecidableEq

/-- The database tables touched by processar and finalizar_recebimento: the
insumo, variacao and costureira rows (total maps from ids), the stock
movement log, and the single payment row keyed by the remessa under
consideration. -/
structure World where
  insumos : Nat → Insumo
  variacoes : Nat → VariacaoProduto
  costureiras : Nat → Costureira
  movimentos : List MovimentoEstoque
  pagamento : Option PagamentoCostureira

/-- Point update of a total map. -/
def updF {α : Type _} (f : Nat → α) (k : Nat) (v : α) : Nat → α :=
  fun n => if n = k then v else f n

/-- Insumo.saida lifted to the world: on success the updated insumo row is
stored back and the movement is appended to the log. -/
def saidaW (w : World) (iid : Nat) (q : ℚ) (obs : String)
    (cid rid : Option Nat) : Except LedgerError World :=
  match (w.insumos iid).saida (some q) obs cid rid with
  | .error e => .error e
  | .ok (i', mov) =>
      .ok { w with insumos := updF w.insumos iid i',
                   movimentos := w.movimentos ++ [mov] }

/-- The material loop of OrdemProducao.processar: for each ficha entry issue
the quantized quantity and accumulate its cost at the current average cost.
The source method runs without an enclosing transaction and each saida saves
immediately, so when one saida raises the effects of the earlier iterations
remain: the model returns the partially mutated world with none. -/
def processarFicha (opQ : ℚ) (obs : String) :
    World → ℚ → List FichaTecnicaItem → World × Option ℚ
  | w, acc, [] => (w, some acc)
  | w, acc, item :: rest =>
      let qt_total := quantizeDec 4 (item.quantidade * opQ)
      let acc' := acc + (w.insumos item.insumoId).custo_medio * qt_total
      match saidaW w item.insumoId qt_total obs none none with
      | .error _ => (w, none)
      | .ok w' => processarFicha opQ obs w' acc' rest

/-- Embeds OrdemProducao.processar (models.py lines 361 to 377): issue every
ficha entry, compute the unit cost from material, labor and overhead cost,
store it on the variant, credit the variant stock by the order quantity and
append one "E" movement.  A failed issue propagates, leaving the partial
world (the method has no enclosing transaction; the op_create view at
views.py line 505 invokes it outside any transaction). -/
def OrdemProducao.processar (op : OrdemProducao) (w : World) : World × Option ℚ :=
  match processarFicha op.quantidade "OP" w 0 (w.variacoes op.variacaoId).ficha with
  | (w1, none) => (w1, none)
  | (w1, some total_insumos) =>
      let total := total_insumos + op.custo_mao_de_obra + op.custo_indireto_rateado
      let custo_unit := quantizeDec 4 (total / op.quantidade)
      let var1 := w1.variacoes op.variacaoId
      let var2 := { var1 with custo_unitario := custo_unit,
                              estoque_atual := var1.estoque_atual + op.quantidade }
      let mov : MovimentoEstoque :=
        { tipo := "E", insumoId := none, variacaoId := some var1.id,
          quantidade := op.quantidade, custo_unit := custo_unit,
          costureiraId := none, remessaId := none, observacao := "Producao OP" }
      ({ w1 with variacoes := updF w1.variacoes op.variacaoId var2,
                 movimentos := w1.movimentos ++ [mov] }, some custo_unit)

/-- Total material cost of an order: for each ficha entry, the cost of the
issued (4-decimal quantized) quantity at the given average cost per insumo. -/
def fichaCost (custoOf : Nat → ℚ) (opQ : ℚ) (l : List FichaTecnicaItem) : ℚ :=
  (l.map (fun fi => custoOf fi.insumoId * quantizeDec 4 (fi.quantidade * opQ))).sum

/-- Total quantity issued to one insumo by a ficha run. -/
def fichaIssued (opQ : ℚ) (l : List FichaTecnicaItem) (iid : Nat) : ℚ :=
  ((l.filter (fun fi => fi.insumoId == iid)).map
    (fun fi => quantizeDec 4 (fi.quantidade * opQ))).sum

/-- Example world for the non-atomicity of processar: insumo 1 has ample
stock, insumo 2 has none; variant 7 needs both. -/
def exWorldOP : World :=
  { insumos := fun n =>
      if n = 1 then ⟨1, "Tecido", 100, 2⟩
      else if n = 2 then ⟨2, "Linha", 0, 1⟩
      else ⟨n, "", 0, 0⟩,
    variacoes := fun n =>
      if n = 7 then ⟨7, 0, 0, 0, [⟨1, 1/2, "AUTO"⟩, ⟨2, 1, "AUTO"⟩]⟩
      else ⟨n, 0, 0, 0, []⟩,
    costureiras := fun n => ⟨n, 0, 0, 0⟩,
    movimentos := [],
    pagamento := none }

/-- The production order used by the processar examples. -/
def exOrdem : OrdemProducao := ⟨1, 7, 10, 0, 0⟩

/-- Example world in which both materials of variant 7 are in stock. -/
def exWorldOP2 : World :=
  { insumos := fun n =>
      if n = 1 then ⟨1, "Tecido", 100, 2⟩
      else if n = 2 then ⟨2, "Linha", 50, 1⟩
      else ⟨n, "", 0, 0⟩,
    variacoes := fun n =>
      if n = 7 then ⟨7, 0, 0, 0, [⟨1, 1/2, "AUTO"⟩, ⟨2, 1, "AUTO"⟩]⟩
      else ⟨n, 0, 0, 0, []⟩,
    costureiras := fun n => ⟨n, 0, 0, 0⟩,
    movimentos := [],
    pagamento := none }

/-- Embeds Remessa.preco_base_para_tipo (models.py lines 761 to 767): the
costureira base price for the remessa phase type. -/
def preco_base_para_tipo (c : Costureira) (tipo : String) : ℚ :=
  if tipo = "CORTE" then c.preco_corte_por_peca
  else if tipo = "COSTURA" then c.preco_costura_por_peca
  else c.preco_correcao_por_peca

/-- Embeds RemessaItem.preco_unitario_efetivo (models.py lines 936 to 937):
the line override when nonzero (nonzero is truthy in Python), else the base
price for the remessa phase type. -/
def preco_unitario_efetivo (it : RemessaItem) (c : Costureira) (tipo : String) : ℚ :=
  if it.preco_unit = 0 then preco_base_para_tipo c tipo else it.preco_unit

/-- The inner material loop of finalizar_recebimento, shared by the CORTE
and COSTURA branches: issue the quantized ficha quantity times the ok
quantity of every ficha entry whose resolved phase equals the target phase,
tagging the movements with the costureira and remessa. -/
def issueFicha (fase_alvo obs : String) (cid rid : Option Nat) (qtd_ok : ℚ) :
    World → List FichaTecnicaItem → Except LedgerError World
  | w, [] => .ok w
  | w, fi :: rest =>
      if _resolver_fase_item (w.insumos fi.insumoId).categoriaNome fi.fase
          ≠ fase_alvo then
        issueFicha fase_alvo obs cid rid qtd_ok w rest
      else
        match saidaW w fi.insumoId (quantizeDec 4 (fi.quantidade * qtd_ok))
            obs cid rid with
        | .error e => .error e
        | .ok w' => issueFicha fase_alvo obs cid rid qtd_ok w' rest

/-- The finished-goods credit applied per line of a COSTURA remessa: add the
ok quantity to the variant stock and append one "E" movement valued at the
variant unit cost, tagged with the costureira and remessa. -/
def creditStep (cid rid : Nat) (numero : String) (it : RemessaItem)
    (w : World) : World :=
  let var1 := w.variacoes it.variacaoId
  let var2 := { var1 with estoque_atual := var1.estoque_atual + it.qtd_ok }
  let mov : MovimentoEstoque :=
    { tipo := "E", insumoId := none, variacaoId := some var1.id,
      quantidade := it.qtd_ok, custo_unit := var1.custo_unitario,
      costureiraId := some cid, remessaId := some rid,
      observacao := "Entrada pos-costura " ++ numero }
  { w with variacoes := updF w.variacoes it.variacaoId var2,
           movimentos := w.movimentos ++ [mov] }

/-- The per-line loop of finalizar_recebimento: skip lines with ok not
positive, accumulate the payment, and apply the phase-specific effects
(CORTE issues CORTE-phase materials; COSTURA issues COSTURA-phase materials
and credits the variant with an "E" movement; any other type only pays). -/
def processItens (tipo : String) (cid rid : Nat) (numero : String) :
    World → ℚ → List RemessaItem → Except LedgerError (World × ℚ)
  | w, total, [] => .ok (w, total)
  | w, total, it :: rest =>
      if it.qtd_ok ≤ 0 then processItens tipo cid rid numero w total rest
      else
        let total' := total
          + preco_unitario_efetivo it (w.costureiras cid) tipo * it.qtd_ok
        if tipo = "CORTE" then
          match issueFicha "CORTE" ("Corte " ++ numero) (some cid) (some rid)
              it.qtd_ok w (w.variacoes it.variacaoId).ficha with
          | .error e => .error e
          | .ok w' => processItens tipo cid rid numero w' total' rest
        else if tipo = "COSTURA" then
          match issueFicha "COSTURA" ("Costura " ++ numero) (some cid) (some rid)
              it.qtd_ok w (w.variacoes it.variacaoId).ficha with
          | .error e => .error e
          | .ok w' =>
              processItens tipo cid rid numero
                (creditStep cid rid numero it w') total' rest
        else processItens tipo cid rid numero w total' rest

/-- Embeds Remessa.finalizar_recebimento (models.py lines 791 to 865): set
received_at if requested and unset, run the per-line loop, recompute the
status from the (unchanged) lines, and when the accumulated payment is
positive upsert the single payment row keyed by this remessa with the
2-decimal quantized amount and status PENDENTE, returning it; otherwise
return none and leave any stored payment untouched.  The whole operation is
wrapped in one transaction, so a failed issue yields an error and no state
change. -/
def Remessa.finalizar_recebimento (r : Remessa) (w : World) (now : Nat)
    (set_recebido_em : Bool) :
    Except LedgerError (World × Remessa × Option PagamentoCostureira) :=
  let recebido' := if set_recebido_em ∧ r.recebido_em = none then some now
                   else r.recebido_em
  match processItens r.tipo r.costureiraId r.id r.numero w 0 r.itens with
  | .error e => .error e
  | .ok (w1, total_pagto) =>
      let r1 := Remessa.atualizar_status_por_itens { r with recebido_em := recebido' }
      if 0 < total_pagto then
        let pgto : PagamentoCostureira :=
          { costureiraId := r.costureiraId,
            valor_total := quantizeDec 2 total_pagto, status := "PENDENTE" }
        .ok ({ w1 with pagamento := some pgto }, r1, some pgto)
      else .ok (w1, r1, none)

/-- Embeds the pagamento_marcar_pago view: set the stored payment of the
remessa, if any, to PAGO. -/
def marcarPago (w : World) : World :=
  { w with pagamento := w.pagamento.map (fun p => { p with status := "PAGO" }) }

/-- The ficha list of a variant in a world. -/
def fichaOf (w : World) : Nat → List FichaTecnicaItem :=
  fun v => (w.variacoes v).ficha

/-- The category name of an insumo in a world. -/
def catOf (w : World) : Nat → String :=
  fun i => (w.insumos i).categoriaNome

/-- The id of a variant in a world. -/
def varIdOf (w : World) : Nat → Nat :=
  fun v => (w.variacoes v).id

/-- The unit cost of a variant in a world. -/
def varCustoOf (w : World) : Nat → ℚ :=
  fun v => (w.variacoes v).custo_unitario

/-- Quantity issued to one insumo by an issueFicha run over a ficha list:
the sum of the quantized quantities of the entries that resolve to the
target phase and point at that insumo. -/
def fichaDeltaFase (cats : Nat → String) (fase_alvo : String) (qtd_ok : ℚ)
    (l : List FichaTecnicaItem) (iid : Nat) : ℚ :=
  ((l.filter (fun fi =>
      decide (_resolver_fase_item (cats fi.insumoId) fi.fase = fase_alvo
        ∧ fi.insumoId = iid))).map
    (fun fi => quantizeDec 4 (fi.quantidade * qtd_ok))).sum

/-- Quantity issued to one insumo by a whole finalization: zero unless the
remessa type is CORTE or COSTURA, else the sum over the lines with positive
ok of the phase-filtered ficha issue for that line. -/
def itensDelta (fichas : Nat → List FichaTecnicaItem) (cats : Nat → String)
    (tipo : String) (l : List RemessaItem) (iid : Nat) : ℚ :=
  if tipo = "CORTE" ∨ tipo = "COSTURA" then
    ((l.filter (fun it => decide (0 < it.qtd_ok))).map
      (fun it => fichaDeltaFase cats tipo it.qtd_ok (fichas it.variacaoId) iid)).sum
  else 0

/-- Finished-goods credit received by one variant from a finalization: the
ok quantities of its lines, but only for a COSTURA remessa. -/
def creditDelta (tipo : String) (l : List RemessaItem) (v : Nat) : ℚ :=
  if tipo = "COSTURA" then
    ((l.filter (fun it => decide (0 < it.qtd_ok ∧ it.variacaoId = v))).map
      (fun it => it.qtd_ok)).sum
  else 0

/-- Payment accumulated by a finalization: effective price times ok for
every line with positive ok. -/
def totalPagto (c : Costureira) (tipo : String) (l : List RemessaItem) : ℚ :=
  ((l.filter (fun it => decide (0 < it.qtd_ok))).map
    (fun it => preco_unitario_efetivo it c tipo * it.qtd_ok)).sum

/-- The world component of a finalization result (the input world when the
transaction rolled back). -/
def resWorld (w : World)
    (e : Except LedgerError (World × Remessa × Option PagamentoCostureira)) :
    World :=
  match e with
  | .ok (w', _, _) => w'
  | .error _ => w

/-- The remessa component of a finalization result. -/
def resRemessa (r : Remessa)
    (e : Except LedgerError (World × Remessa × Option PagamentoCostureira)) :
    Remessa :=
  match e with
  | .ok (_, r', _) => r'
  | .error _ => r

/-- The payment returned by a finalization, none on failure. -/
def resPagamento
    (e : Except LedgerError (World × Remessa × Option PagamentoCostureira)) :
    Option PagamentoCostureira :=
  match e with
  | .ok (_, _, p) => p
  | .error _ => none

/-- The credit movement recorded for a line of a COSTURA remessa. -/
def creditMov (varIdOf : Nat → Nat) (varCustoOf : Nat → ℚ) (numero : String)
    (cid rid : Nat) (it : RemessaItem) : MovimentoEstoque :=
  { tipo := "E", insumoId := none, variacaoId := some (varIdOf it.variacaoId),
    quantidade := it.qtd_ok, custo_unit := varCustoOf it.variacaoId,
    costureiraId := some cid, remessaId := some rid,
    observacao := "Entrada pos-costura " ++ numero }

/-- Example world for the CUT finalization: insumo 1 is fabric consumed at
cut time, insumo 2 is thread consumed at sew time; variant 4 needs half a
unit of fabric and one unit of thread per piece; costureira 1 charges 3 per
cut piece. -/
def exWorldR : World :=
  { insumos := fun n =>
      if n = 1 then ⟨1, "Tecido", 100, 2⟩
      else if n = 2 then ⟨2, "Linha", 50, 1⟩
      else ⟨n, "", 0, 0⟩,
    variacoes := fun n =>
      if n = 4 then ⟨4, 0, 7, 0, [⟨1, 1/2, "AUTO"⟩, ⟨2, 1, "AUTO"⟩]⟩
      else ⟨n, 0, 0, 0, []⟩,
    costureiras := fun n => ⟨n, 3, 5, 1⟩,
    movimentos := [],
    pagamento := none }

/-- The CUT shipment of the C1 example: one line, planned 10, ok 8, loss 1,
missing 1, returned 0, no price override. -/
def exRemessaCorte : Remessa :=
  ⟨11, "RM-11", 1, "CORTE", some 1, 0, none, "ENVIADA",
    [⟨4, 10, 8, 1, 1, 0, 0⟩]⟩

/-- Example world for the refinalization counterexample: a CORRECAO remessa
whose payment row already exists and was marked PAGO. -/
def exWorldPaid : World :=
  { insumos := fun n => ⟨n, "", 0, 0⟩,
    variacoes := fun n => ⟨n, 0, 0, 0, []⟩,
    costureiras := fun n => ⟨n, 3, 5, 1⟩,
    movimentos := [],
    pagamento := some ⟨1, 10, "PAGO"⟩ }

/-- The CORRECAO shipment of the refinalization counterexample: one line
with ok 5 and price override 2, so the recomputed total is 10. -/
def exRemessaCorrecao : Remessa :=
  ⟨12, "RM-12", 1, "CORRECAO", none, 0, some 3, "CONCLUIDO",
    [⟨4, 5, 5, 0, 0, 0, 2⟩]⟩

/-- Example world for the COSTURA refinalization witness: thread in ample
stock for two finalizations of the same shipment. -/
def exWorldSew : World :=
  { insumos := fun n =>
      if n = 2 then ⟨2, "Linha", 100, 1⟩
      else ⟨n, "", 0, 0⟩,
    variacoes := fun n =>
      if n = 4 then ⟨4, 0, 7, 0, [⟨2, 1, "AUTO"⟩]⟩
      else ⟨n, 0, 0, 0, []⟩,
    costureiras := fun n => ⟨n, 3, 5, 1⟩,
    movimentos := [],
    pagamento := none }

/-- The COSTURA shipment of the refinalization witness: one line with ok 8
and no override, so each finalization pays 40, issues 8 units of thread and
credits variant 4 by 8. -/
def exRemessaCostura : Remessa :=
  ⟨13, "RM-13", 1, "COSTURA", some 1, 0, none, "ENVIADA",
    [⟨4, 10, 8, 0, 0, 0, 0⟩]⟩

/-- First finalization of the COSTURA example. -/
def exSewRun1 : Except LedgerError (World × Remessa × Option PagamentoCostureira) :=
  exRemessaCostura.finalizar_recebimento exWorldSew 5 true

/-- World after the first finalization of the COSTURA example. -/
def exSewW1 : World := resWorld exWorldSew exSewRun1

/-- Remessa after the first finalization of the COSTURA example. -/
def exSewR1 : Remessa := resRemessa exRemessaCostura exSewRun1

/-- Second finalization of the COSTURA example, after the payment was
marked PAGO. -/
def exSewRun2 : Except LedgerError (World × Remessa × Option PagamentoCostureira) :=
  exSewR1.finalizar_recebimento (marcarPago exSewW1) 6 true

/-- World after the second finalization of the COSTURA example. -/
def exSewW2 : World := resWorld (marcarPago exSewW1) exSewRun2

/-! ## Theorems -/

/-! ## Lemmas on single-material ledger operations -/

lemma applyOp_nonneg (i : Insumo) (op : LedgerOp) (hop : ValidOp op)
    (h0 : 0 ≤ i.estoque_atual) : 0 ≤ (applyOp i op).estoque_atual := by
  cases op with
  | entradaOp q c =>
      simp only [applyOp, Insumo.entrada, Option.getD_some]
      simp only [ValidOp] at hop
      linarith
  | saidaOp q =>
      by_cases hlt : i.estoque_atual < q
      · simp only [applyOp, Insumo.applySaida, Insumo.saida, Option.getD_some,
          if_pos hlt]
        exact h0
      · simp only [applyOp, Insumo.applySaida, Insumo.saida, Option.getD_some,
          if_neg hlt]
        push_neg at hlt
        linarith

lemma runOps_nonneg : ∀ (ops : List LedgerOp) (i : Insumo),
    (∀ op ∈ ops, ValidOp op) → 0 ≤ i.estoque_atual →
    0 ≤ (runOps i ops).estoque_atual
  | [], i, _, h0 => h0
  | op :: rest, i, hops, h0 => by
      simp only [runOps]
      exact runOps_nonneg rest (applyOp i op)
        (fun o ho => hops o (List.mem_cons_of_mem _ ho))
        (applyOp_nonneg i op (hops op (List.mem_cons_self _ _)) h0)

/-- C6: Insumo.entrada with a positive quantity updates the weighted average
cost to (old quantity times old cost plus quantity times unit cost) divided by
the new quantity whenever the resulting stock is positive, leaves the cost
unchanged otherwise, adds the quantity to the stock, and produces exactly one
"E" movement carrying the received quantity and unit cost; from empty stock,
two receipts (q1, c1) then (q2, c2) end with cost
(q1 c1 + q2 c2) / (q1 + q2) exactly. -/
theorem entrada_weighted_average
    (i i0 : Insumo) (q c q1 c1 q2 c2 : ℚ)
    (hq0 : 0 ≤ i.estoque_atual) (hc0 : 0 ≤ i.custo_medio)
    (hq : 0 < q) (hc : 0 ≤ c)
    (h0 : i0.estoque_atual = 0)
    (hq1 : 0 < q1) (hc1 : 0 ≤ c1) (hq2 : 0 < q2) (hc2 : 0 ≤ c2) :
    ((i.entrada (some q) (some c) "" none none).1.custo_medio
        = (i.estoque_atual * i.custo_medio + q * c) / (i.estoque_atual + q)) ∧
    ((i.entrada (some q) (some c) "" none none).1.estoque_atual
        = i.estoque_atual + q) ∧
    (i.entrada (some q) (some c) "" none none).2.tipo = "E" ∧
    (i.entrada (some q) (some c) "" none none).2.quantidade = q ∧
    (i.entrada (some q) (some c) "" none none).2.custo_unit = c ∧
    ((i0.entrada (some q1) (some c1) "" none none).1.entrada
        (some q2) (some c2) "" none none).1.custo_medio
      = (q1 * c1 + q2 * c2) / (q1 + q2) := by
  have hpos : 0 < i.estoque_atual + q := by linarith
  refine ⟨?_, ?_, rfl, rfl, rfl, ?_⟩
  · simp only [Insumo.entrada, Option.getD_some, if_pos hpos]
  · simp only [Insumo.entrada, Option.getD_some]
  · have h1 : 0 < i0.estoque_atual + q1 := by rw [h0]; linarith
    have h2 : 0 < i0.estoque_atual + q1 + q2 := by rw [h0]; linarith
    simp only [Insumo.entrada, Option.getD_some, if_pos h1, if_pos h2]
    rw [h0]
    have hq1' : q1 ≠ 0 := ne_of_gt hq1
    have h12 : q1 + q2 ≠ 0 := by positivity
    field_simp

/-- Witness for entrada_weighted_average at a concrete input: receiving 2 at
cost 3 and then 6 at cost 7 into an empty material gives average cost 6. -/
theorem entrada_weighted_average_witness :
    (((⟨7, "Linha", 0, 0⟩ : Insumo).entrada (some 2) (some 3) "" none none).1.entrada
        (some 6) (some 7) "" none none).1.custo_medio = 6 := by
  have h := entrada_weighted_average ⟨7, "Linha", 4, 5⟩ ⟨7, "Linha", 0, 0⟩
    2 3 2 3 6 7 (by norm_num) (by norm_num) (by norm_num) (by norm_num)
    (by norm_num) (by norm_num) (by norm_num) (by norm_num) (by norm_num)
  exact h.2.2.2.2.2.trans (by norm_num)

/-- C7: Insumo.saida with positive quantity fails with the insufficient-stock
error exactly when the quantity exceeds the stock; on failure the material and
its movement log are unchanged; on success the stock drops by the quantity,
the average cost is untouched, and one "S" movement valued at the current
average cost is produced.  Consequently every sequence of positive receipts
and issues keeps the stock nonnegative. -/
theorem saida_never_negative
    (i : Insumo) (q : ℚ) (ops : List LedgerOp)
    (hq : 0 < q) (h0 : 0 ≤ i.estoque_atual)
    (hops : ∀ op ∈ ops, ValidOp op) :
    ((i.saida (some q) "" none none = .error .estoqueInsuficiente)
        ↔ i.estoque_atual < q) ∧
    (i.estoque_atual < q → i.applySaida q = i ∧ i.saidaMov q = none) ∧
    (q ≤ i.estoque_atual →
      (i.applySaida q).estoque_atual = i.estoque_atual - q ∧
      (i.applySaida q).custo_medio = i.custo_medio ∧
      ∃ m, i.saidaMov q = some m ∧ m.tipo = "S" ∧ m.quantidade = q ∧
        m.custo_unit = i.custo_medio) ∧
    0 ≤ (runOps i ops).estoque_atual := by
  refine ⟨?_, ?_, ?_, runOps_nonneg ops i hops h0⟩
  · constructor
    · intro h
      by_contra hlt
      push_neg at hlt
      simp only [Insumo.saida, Option.getD_some, if_neg (not_lt.mpr hlt)] at h
      exact Except.noConfusion h
    · intro h
      simp only [Insumo.saida, Option.getD_some, if_pos h]
  · intro h
    constructor
    · simp only [Insumo.applySaida, Insumo.saida, Option.getD_some, if_pos h]
    · simp only [Insumo.saidaMov, Insumo.saida, Option.getD_some, if_pos h]
  · intro h
    have hnot : ¬ i.estoque_atual < q := not_lt.mpr h
    refine ⟨?_, ?_, ?_⟩
    · simp only [Insumo.applySaida, Insumo.saida, Option.getD_some, if_neg hnot]
    · simp only [Insumo.applySaida, Insumo.saida, Option.getD_some, if_neg hnot]
    · refine ⟨⟨"S", some i.id, none, q, i.custo_medio, none, none, ""⟩,
        ?_, rfl, rfl, rfl⟩
      simp only [Insumo.saidaMov, Insumo.saida, Option.getD_some, if_neg hnot]

/-- Witness for saida_never_negative at a concrete input: on a material with
stock 10, issuing 12 fails, issuing 4 leaves 6, and the sequence
receive 5, issue 3, issue 100, issue 2 ends with nonnegative stock. -/
theorem saida_never_negative_witness :
    (((⟨3, "Tecido", 10, 2⟩ : Insumo).saida (some 12) "" none none
        = .error .estoqueInsuficiente) ↔ (10 : ℚ) < 12) ∧
    ((⟨3, "Tecido", 10, 2⟩ : Insumo).applySaida 4).estoque_atual = 6 ∧
    0 ≤ (runOps ⟨3, "Tecido", 10, 2⟩
      [.entradaOp 5 1, .saidaOp 3, .saidaOp 100, .saidaOp 2]).estoque_atual := by
  have h12 := saida_never_negative ⟨3, "Tecido", 10, 2⟩ 12
    [.entradaOp 5 1, .saidaOp 3, .saidaOp 100, .saidaOp 2]
    (by norm_num) (by norm_num)
    (by intro op hop
        fin_cases hop <;> simp [ValidOp])
  have h4 := saida_never_negative ⟨3, "Tecido", 10, 2⟩ 4 []
    (by norm_num) (by norm_num) (by intro op hop; cases hop)
  refine ⟨h12.1, ?_, h12.2.2.2⟩
  have := (h4.2.2.1 (by norm_num)).1
  rw [this]
  norm_num

/-- C10: Insumo.entrada performs no validation: for any quantity and cost the
stock becomes the old stock plus the quantity (so a negative quantity strictly
decreases it), the cost is untouched whenever the resulting stock is
nonpositive, exactly one "E" movement is produced, and None arguments are
coerced to zero. -/
theorem entrada_unvalidated (i : Insumo) (q c : ℚ) :
    ((i.entrada (some q) (some c) "" none none).1.estoque_atual
        = i.estoque_atual + q) ∧
    (q < 0 → (i.entrada (some q) (some c) "" none none).1.estoque_atual
        < i.estoque_atual) ∧
    (i.estoque_atual + q ≤ 0 →
      (i.entrada (some q) (some c) "" none none).1.custo_medio
        = i.custo_medio) ∧
    (i.entrada (some q) (some c) "" none none).2.tipo = "E" ∧
    (i.entrada (some q) (some c) "" none none).2.quantidade = q ∧
    i.entrada none none "" none none = i.entrada (some 0) (some 0) "" none none := by
  refine ⟨?_, ?_, ?_, rfl, rfl, rfl⟩
  · simp only [Insumo.entrada, Option.getD_some]
  · intro hneg
    simp only [Insumo.entrada, Option.getD_some]
    linarith
  · intro hle
    simp only [Insumo.entrada, Option.getD_some, if_neg (not_lt.mpr hle)]

/-! ## Phase resolver -/

/-- Counterexample to C4: the resolver is not diacritic-insensitive.  A
phase-AUTO entry whose category name is "Tecidó" resolves to COSTURA (sew),
not CORTE (cut) as the claim states, because the source only strips and
lowercases the name and "tecidó" differs from "tecido". -/
theorem resolver_fase_diacritic_counterexample :
    _resolver_fase_item "Tecidó" "AUTO" = "COSTURA" ∧ "COSTURA" ≠ "CORTE" := by
  constructor
  · decide
  · decide

/-- C4 (amended): the resolver returns a nonempty non-AUTO configuration
unchanged; for an AUTO (or empty) configuration it returns CORTE exactly when
the category name, stripped of surrounding whitespace and lowercased, equals
"tecido", and COSTURA otherwise.  The match is case-insensitive but
diacritic-sensitive: "TECIDO" and "tecido" resolve to CORTE while "Tecidó"
resolves to COSTURA. -/
theorem resolver_fase_spec (nome fase : String) :
    (fase ≠ "" → fase ≠ "AUTO" → _resolver_fase_item nome fase = fase) ∧
    (_resolver_fase_item nome "AUTO" = "CORTE" ↔ pyNormalize nome = "tecido") ∧
    (_resolver_fase_item nome "AUTO" = "COSTURA" ↔ pyNormalize nome ≠ "tecido") ∧
    _resolver_fase_item "TECIDO" "AUTO" = "CORTE" ∧
    _resolver_fase_item " tecido " "AUTO" = "CORTE" ∧
    _resolver_fase_item "Tecidó" "AUTO" = "COSTURA" := by
  refine ⟨?_, ?_, ?_, by decide, by decide, by decide⟩
  · intro h1 h2
    simp only [_resolver_fase_item, if_pos (And.intro h1 h2)]
  · simp only [_resolver_fase_item]
    by_cases h : pyNormalize nome = "tecido" <;> simp [h]
  · simp only [_resolver_fase_item]
    by_cases h : pyNormalize nome = "tecido" <;> simp [h]

/-- Witness for resolver_fase_spec at concrete inputs: an explicit CORTE
configuration is kept, and the AUTO heuristic sends the category "Linha" to
COSTURA. -/
theorem resolver_fase_spec_witness :
    _resolver_fase_item "Linha" "CORTE" = "CORTE" ∧
    _resolver_fase_item "Linha" "AUTO" = "COSTURA" := by
  have h := resolver_fase_spec "Linha" "CORTE"
  have h2 := resolver_fase_spec "Linha" "AUTO"
  exact ⟨h.1 (by decide) (by decide), (h2.2.2.1).mpr (by decide)⟩

/-! ## Remessa (outsourced shipment) data model -/

/-- C3: after recomputation the status is a pure function of the line items
and received_at: PARCIAL exactly when received with positive aggregate
balance, CONCLUIDO exactly when received with nonpositive aggregate balance,
ENVIADA exactly when not received; each line balance is the planned quantity
minus the sum of the ok, loss, missing and returned buckets, quantized to 2
decimals and never clamped. -/
theorem atualizar_status_spec (r : Remessa) :
    ((r.atualizar_status_por_itens).status = "PARCIAL"
      ↔ r.recebido_em.isSome ∧ 0 < (r.itens.map RemessaItem.saldo).sum) ∧
    ((r.atualizar_status_por_itens).status = "CONCLUIDO"
      ↔ r.recebido_em.isSome ∧ (r.itens.map RemessaItem.saldo).sum ≤ 0) ∧
    ((r.atualizar_status_por_itens).status = "ENVIADA" ↔ r.recebido_em = none) ∧
    (r.atualizar_status_por_itens).itens = r.itens ∧
    (r.atualizar_status_por_itens).recebido_em = r.recebido_em ∧
    (∀ it : RemessaItem, it.saldo = quantizeDec 2 (it.qtd_prevista
      - (it.qtd_ok + it.qtd_perda + it.qtd_extravio + it.qtd_devolvida))) := by
  refine ⟨?_, ?_, ?_, rfl, rfl, fun it => rfl⟩
  · simp only [Remessa.atualizar_status_por_itens]
    rcases hrec : r.recebido_em with _ | t
    · simp [hrec]
    · rcases lt_or_le 0 ((r.itens.map RemessaItem.saldo).sum) with hpos | hle
      · simp [hrec, hpos]
      · simp [hrec, not_lt.mpr hle, hle]
  · simp only [Remessa.atualizar_status_por_itens]
    rcases hrec : r.recebido_em with _ | t
    · simp [hrec]
    · rcases lt_or_le 0 ((r.itens.map RemessaItem.saldo).sum) with hpos | hle
      · simp [hrec, hpos, not_le.mpr hpos]
      · simp [hrec, not_lt.mpr hle, hle]
  · simp only [Remessa.atualizar_status_por_itens]
    rcases hrec : r.recebido_em with _ | t
    · simp [hrec]
    · rcases lt_or_le 0 ((r.itens.map RemessaItem.saldo).sum) with hpos | hle
      · simp [hrec, hpos]
      · simp [hrec, not_lt.mpr hle, hle]

/-- Witness for atualizar_status_spec at a concrete input: a received
shipment whose single line has planned 10 and buckets 8, 1, 1, 0 has
aggregate balance 0 and recomputes to CONCLUIDO. -/
theorem atualizar_status_spec_witness :
    (Remessa.atualizar_status_por_itens
      ⟨1, "RM-1", 1, "CORTE", none, 0, some 5, "ENVIADA",
        [⟨1, 10, 8, 1, 1, 0, 0⟩]⟩).status = "CONCLUIDO" := by
  have h := atualizar_status_spec
    ⟨1, "RM-1", 1, "CORTE", none, 0, some 5, "ENVIADA", [⟨1, 10, 8, 1, 1, 0, 0⟩]⟩
  exact h.2.1.mpr ⟨by decide, by decide⟩

/-- C9: the successor shipment keeps the grouping product, keeps the
costureira unless one is supplied, and has exactly one line per source line
(lines with ok zero included), in source order, with planned quantity equal
to the source ok quantity and all four returned buckets zero. -/
theorem gerar_remessa_posterior_spec (r : Remessa) (tipo : String)
    (costureira : Option Nat) (freshId : Nat) (freshNumero : String) :
    (r.gerar_remessa_posterior tipo costureira freshId freshNumero).produtoId
        = r.produtoId ∧
    (r.gerar_remessa_posterior tipo costureira freshId freshNumero).costureiraId
        = costureira.getD r.costureiraId ∧
    (r.gerar_remessa_posterior tipo costureira freshId freshNumero).tipo = tipo ∧
    (r.gerar_remessa_posterior tipo costureira freshId freshNumero).itens.length
        = r.itens.length ∧
    (r.gerar_remessa_posterior tipo costureira freshId freshNumero).itens.map
        (fun it => it.variacaoId) = r.itens.map (fun it => it.variacaoId) ∧
    (r.gerar_remessa_posterior tipo costureira freshId freshNumero).itens.map
        (fun it => it.qtd_prevista) = r.itens.map (fun it => it.qtd_ok) ∧
    (∀ it ∈ (r.gerar_remessa_posterior tipo costureira freshId freshNumero).itens,
      it.qtd_ok = 0 ∧ it.qtd_perda = 0 ∧ it.qtd_extravio = 0 ∧
      it.qtd_devolvida = 0) := by
  refine ⟨rfl, rfl, rfl, by simp [Remessa.gerar_remessa_posterior], ?_, ?_, ?_⟩
  · simp [Remessa.gerar_remessa_posterior]
  · simp [Remessa.gerar_remessa_posterior]
  · intro it hit
    simp only [Remessa.gerar_remessa_posterior, List.mem_map] at hit
    obtain ⟨src, _, hsrc⟩ := hit
    rw [← hsrc]
    exact ⟨rfl, rfl, rfl, rfl⟩

/-- Witness for gerar_remessa_posterior_spec at a concrete input: from a CUT
shipment with one line (variant 4, ok 8) the generated COSTURA shipment has
one line for variant 4 with planned 8 and zero returned buckets. -/
theorem gerar_remessa_posterior_spec_witness :
    ((Remessa.gerar_remessa_posterior
        ⟨1, "RM-1", 2, "CORTE", some 9, 0, some 5, "CONCLUIDO",
          [⟨4, 10, 8, 1, 1, 0, 0⟩]⟩ "COSTURA" none 2 "RM-2").itens
      = [⟨4, 8, 0, 0, 0, 0, 0⟩]) ∧
    (Remessa.gerar_remessa_posterior
        ⟨1, "RM-1", 2, "CORTE", some 9, 0, some 5, "CONCLUIDO",
          [⟨4, 10, 8, 1, 1, 0, 0⟩]⟩ "COSTURA" none 2 "RM-2").costureiraId = 2 := by
  have h := gerar_remessa_posterior_spec
    ⟨1, "RM-1", 2, "CORTE", some 9, 0, some 5, "CONCLUIDO",
      [⟨4, 10, 8, 1, 1, 0, 0⟩]⟩ "COSTURA" none 2 "RM-2"
  exact ⟨by decide, h.2.1.trans (by decide)⟩

/-- Witness for entrada_unvalidated at a concrete input: receiving quantity
-8 into a material with stock 5 drives the stock to -3, below zero, with the
cost left unchanged. -/
theorem entrada_unvalidated_witness :
    ((⟨9, "Tecido", 5, 2⟩ : Insumo).entrada (some (-8)) (some 1) "" none none).1.estoque_atual = -3 ∧
    ((-3 : ℚ) < 0) ∧
    ((⟨9, "Tecido", 5, 2⟩ : Insumo).entrada (some (-8)) (some 1) "" none none).1.custo_medio = 2 := by
  have h := entrada_unvalidated ⟨9, "Tecido", 5, 2⟩ (-8) 1
  refine ⟨h.1.trans (by norm_num), by norm_num, ?_⟩
  have := h.2.2.1 (by norm_num)
  rw [this]

/-! ## World state for multi-table operations -/

lemma saidaW_ok (w : World) (iid : Nat) (q : ℚ) (obs : String)
    (cid rid : Option Nat) (w' : World)
    (h : saidaW w iid q obs cid rid = .ok w') :
    (∀ j, (w'.insumos j).estoque_atual
        = (w.insumos j).estoque_atual - (if j = iid then q else 0) ∧
      (w'.insumos j).custo_medio = (w.insumos j).custo_medio ∧
      (w'.insumos j).categoriaNome = (w.insumos j).categoriaNome ∧
      (w'.insumos j).id = (w.insumos j).id) ∧
    w'.variacoes = w.variacoes ∧
    w'.costureiras = w.costureiras ∧
    w'.pagamento = w.pagamento ∧
    ∃ m, w'.movimentos = w.movimentos ++ [m] ∧ m.tipo = "S" ∧
      m.costureiraId = cid ∧ m.remessaId = rid := by
  by_cases hlt : (w.insumos iid).estoque_atual < q
  · simp only [saidaW, Insumo.saida, Option.getD_some, if_pos hlt] at h
    exact Except.noConfusion h
  · simp only [saidaW, Insumo.saida, Option.getD_some, if_neg hlt,
      Except.ok.injEq] at h
    rw [← h]
    refine ⟨?_, rfl, rfl, rfl, ⟨_, rfl, rfl, rfl, rfl⟩⟩
    intro j
    by_cases hj : j = iid
    · subst hj
      simp [updF]
    · simp [updF, hj]

lemma fichaIssued_nil (opQ : ℚ) (j : Nat) : fichaIssued opQ [] j = 0 := rfl

lemma fichaIssued_cons (opQ : ℚ) (item : FichaTecnicaItem)
    (rest : List FichaTecnicaItem) (j : Nat) :
    fichaIssued opQ (item :: rest) j
      = (if j = item.insumoId then quantizeDec 4 (item.quantidade * opQ) else 0)
        + fichaIssued opQ rest j := by
  simp only [fichaIssued, List.filter_cons]
  by_cases hj : item.insumoId = j
  · simp [hj, beq_iff_eq]
  · have hj' : ¬ j = item.insumoId := fun hh => hj hh.symm
    simp [hj, hj', beq_iff_eq]

lemma fichaIssued_notMem (opQ : ℚ) :
    ∀ (l : List FichaTecnicaItem) (j : Nat),
    (∀ fi ∈ l, fi.insumoId ≠ j) → fichaIssued opQ l j = 0
  | [], _, _ => rfl
  | item :: rest, j, h => by
      rw [fichaIssued_cons, fichaIssued_notMem opQ rest j
        (fun fi hfi => h fi (List.mem_cons_of_mem _ hfi)),
        if_neg (fun hh => h item (List.mem_cons_self _ _) hh.symm), add_zero]

lemma fichaIssued_nodup (opQ : ℚ) :
    ∀ (l : List FichaTecnicaItem),
    (l.map (fun fi => fi.insumoId)).Nodup → ∀ fi ∈ l,
    fichaIssued opQ l fi.insumoId = quantizeDec 4 (fi.quantidade * opQ)
  | [], _, fi, hfi => absurd hfi (List.not_mem_nil fi)
  | x :: rest, hnd, fi, hfi => by
      rw [List.map_cons, List.nodup_cons] at hnd
      obtain ⟨hx, hrest⟩ := hnd
      rcases List.mem_cons.mp hfi with rfl | hmem
      · rw [fichaIssued_cons, if_pos rfl,
          fichaIssued_notMem opQ rest fi.insumoId
            (fun fj hj heq => hx (heq ▸ List.mem_map_of_mem _ hj)), add_zero]
      · rw [fichaIssued_cons,
          if_neg (fun (heq : fi.insumoId = x.insumoId) =>
            hx (heq ▸ List.mem_map_of_mem (fun fi => fi.insumoId) hmem)),
          fichaIssued_nodup opQ rest hrest fi hmem, zero_add]

lemma processarFicha_ok (opQ : ℚ) (obs : String) :
    ∀ (l : List FichaTecnicaItem) (w : World) (acc acc' : ℚ) (w' : World),
    processarFicha opQ obs w acc l = (w', some acc') →
    (∀ j, (w'.insumos j).estoque_atual
        = (w.insumos j).estoque_atual - fichaIssued opQ l j ∧
      (w'.insumos j).custo_medio = (w.insumos j).custo_medio ∧
      (w'.insumos j).categoriaNome = (w.insumos j).categoriaNome ∧
      (w'.insumos j).id = (w.insumos j).id) ∧
    acc' = acc + fichaCost (fun i => (w.insumos i).custo_medio) opQ l ∧
    w'.variacoes = w.variacoes ∧
    w'.costureiras = w.costureiras ∧
    w'.pagamento = w.pagamento ∧
    ∃ ms, w'.movimentos = w.movimentos ++ ms ∧ ∀ m ∈ ms, m.tipo = "S"
  | [], w, acc, acc', w', h => by
      simp only [processarFicha, Prod.mk.injEq, Option.some.injEq] at h
      obtain ⟨rfl, rfl⟩ := h
      refine ⟨?_, by simp [fichaCost], rfl, rfl, rfl, ⟨[], by simp, by simp⟩⟩
      intro j
      simp [fichaIssued_nil]
  | item :: rest, w, acc, acc', w', h => by
      simp only [processarFicha] at h
      rcases hs : saidaW w item.insumoId (quantizeDec 4 (item.quantidade * opQ))
          obs none none with e | w1
      · rw [hs] at h
        simp only [Prod.mk.injEq] at h
        exact absurd h.2 (by simp)
      · rw [hs] at h
        have IH := processarFicha_ok opQ obs rest w1
          (acc + (w.insumos item.insumoId).custo_medio
            * quantizeDec 4 (item.quantidade * opQ)) acc' w' h
        have HS := saidaW_ok w item.insumoId
          (quantizeDec 4 (item.quantidade * opQ)) obs none none w1 hs
        obtain ⟨HSi, HSv, HSc, HSp, m, HSm, HSmt, _, _⟩ := HS
        obtain ⟨IHi, IHacc, IHv, IHc, IHp, ms, IHm, IHmt⟩ := IH
        have hcusto : (fun i => (w1.insumos i).custo_medio)
            = (fun i => (w.insumos i).custo_medio) :=
          funext fun i => (HSi i).2.1
        refine ⟨?_, ?_, IHv.trans HSv, IHc.trans HSc, IHp.trans HSp, ?_⟩
        · intro j
          obtain ⟨e1, e2, e3, e4⟩ := IHi j
          obtain ⟨f1, f2, f3, f4⟩ := HSi j
          refine ⟨?_, e2.trans f2, e3.trans f3, e4.trans f4⟩
          rw [e1, f1, fichaIssued_cons]
          ring
        · rw [IHacc, hcusto]
          have : fichaCost (fun i => (w.insumos i).custo_medio) opQ (item :: rest)
              = (w.insumos item.insumoId).custo_medio
                  * quantizeDec 4 (item.quantidade * opQ)
                + fichaCost (fun i => (w.insumos i).custo_medio) opQ rest := by
            simp [fichaCost]
          rw [this]
          ring
        · refine ⟨m :: ms, ?_, ?_⟩
          · rw [IHm, HSm]
            simp
          · intro m' hm'
            rcases List.mem_cons.mp hm' with rfl | hmem
            · exact HSmt
            · exact IHmt m' hmem

/-- C8: when every material issue succeeds, processar issues the 4-decimal
quantized quantity per unit times the order quantity of each ficha material,
returns and stores on the variant the unit cost
(material cost + labor + overhead) / quantity quantized to 4 decimals,
credits the variant stock by the order quantity, and appends one "E"
movement for the variant after the "S" issue movements. -/
theorem processar_success_spec (w : World) (op : OrdemProducao)
    (hQ : 0 < op.quantidade)
    (hnodup : ((w.variacoes op.variacaoId).ficha.map
      (fun fi => fi.insumoId)).Nodup)
    (hok : (op.processar w).2.isSome = true) :
    (op.processar w).2 = some (quantizeDec 4
      ((fichaCost (fun i => (w.insumos i).custo_medio) op.quantidade
          (w.variacoes op.variacaoId).ficha
        + op.custo_mao_de_obra + op.custo_indireto_rateado) / op.quantidade)) ∧
    ((op.processar w).1.variacoes op.variacaoId).estoque_atual
      = (w.variacoes op.variacaoId).estoque_atual + op.quantidade ∧
    ((op.processar w).1.variacoes op.variacaoId).custo_unitario
      = quantizeDec 4
        ((fichaCost (fun i => (w.insumos i).custo_medio) op.quantidade
            (w.variacoes op.variacaoId).ficha
          + op.custo_mao_de_obra + op.custo_indireto_rateado) / op.quantidade) ∧
    (∀ fi ∈ (w.variacoes op.variacaoId).ficha,
      ((op.processar w).1.insumos fi.insumoId).estoque_atual
        = (w.insumos fi.insumoId).estoque_atual
          - quantizeDec 4 (fi.quantidade * op.quantidade)) ∧
    ∃ ms, (op.processar w).1.movimentos = w.movimentos ++ ms ++
        [⟨"E", none, some (w.variacoes op.variacaoId).id, op.quantidade,
          quantizeDec 4
            ((fichaCost (fun i => (w.insumos i).custo_medio) op.quantidade
                (w.variacoes op.variacaoId).ficha
              + op.custo_mao_de_obra + op.custo_indireto_rateado)
              / op.quantidade),
          none, none, "Producao OP"⟩] ∧
      ∀ m ∈ ms, m.tipo = "S" := by
  rcases hpf : processarFicha op.quantidade "OP" w 0
      (w.variacoes op.variacaoId).ficha with ⟨w1, macc⟩
  cases macc with
  | none =>
      exfalso
      rw [OrdemProducao.processar, hpf] at hok
      simp at hok
  | some total =>
      have H := processarFicha_ok op.quantidade "OP"
        (w.variacoes op.variacaoId).ficha w 0 total w1 hpf
      obtain ⟨Hi, Hacc, Hv, Hc, Hp, ms, Hm, Hmt⟩ := H
      rw [zero_add] at Hacc
      subst Hacc
      simp only [OrdemProducao.processar, hpf]
      refine ⟨by trivial, ?_, ?_, ?_, ?_⟩
      · rw [Hv]
        simp [updF]
      · rw [Hv]
        simp [updF]
      · intro fi hfi
        obtain ⟨e1, _, _, _⟩ := Hi fi.insumoId
        rw [e1, fichaIssued_nodup op.quantidade
          (w.variacoes op.variacaoId).ficha hnodup fi hfi]
      · refine ⟨ms, ?_, Hmt⟩
        rw [Hv, Hm]

/-- Witness for processar_success_spec at a concrete input: variant 7 uses
half a unit of insumo 1 (cost 2) and one unit of insumo 2 (cost 1) per
piece; processing 10 pieces with no labor or overhead gives unit cost 2,
credits the variant by 10 and leaves stocks 95 and 40. -/
theorem processar_success_spec_witness :
    (exOrdem.processar exWorldOP2).2 = some 2 ∧
    ((exOrdem.processar exWorldOP2).1.variacoes 7).estoque_atual = 10 ∧
    ((exOrdem.processar exWorldOP2).1.insumos 1).estoque_atual = 95 ∧
    ((exOrdem.processar exWorldOP2).1.insumos 2).estoque_atual = 40 := by
  have h := processar_success_spec exWorldOP2 exOrdem (by decide) (by decide)
    (by decide)
  refine ⟨h.1.trans (by decide), h.2.1.trans (by decide), ?_, ?_⟩
  · have hd := h.2.2.2.1 ⟨1, 1/2, "AUTO"⟩ (by decide)
    exact hd.trans (by decide)
  · have hd := h.2.2.2.1 ⟨2, 1, "AUTO"⟩ (by decide)
    exact hd.trans (by decide)

/-- C5 fails on the code: OrdemProducao.processar is not atomic.  With ample
stock of insumo 1 and empty stock of insumo 2, processing order exOrdem
fails on the second material, yet insumo 1 has already been decremented from
100 to 95 and its "S" movement committed, because the method body runs
without an enclosing transaction (there is no transaction decorator on
processar, and the op_create view calls it outside any transaction). -/
theorem processar_not_atomic :
    (exOrdem.processar exWorldOP).2 = none ∧
    ((exOrdem.processar exWorldOP).1.insumos 1).estoque_atual = 95 ∧
    (exWorldOP.insumos 1).estoque_atual = 100 ∧
    (exOrdem.processar exWorldOP).1.movimentos
      = [⟨"S", some 1, none, 5, 2, none, none, "OP"⟩] := by
  refine ⟨by decide, by decide, by decide, by decide⟩

/-! ## Finalization of an outsourced shipment -/

lemma fichaDeltaFase_nil (cats : Nat → String) (alvo : String) (ok : ℚ)
    (j : Nat) : fichaDeltaFase cats alvo ok [] j = 0 := rfl

lemma fichaDeltaFase_cons (cats : Nat → String) (alvo : String) (ok : ℚ)
    (fi : FichaTecnicaItem) (rest : List FichaTecnicaItem) (j : Nat) :
    fichaDeltaFase cats alvo ok (fi :: rest) j
      = (if _resolver_fase_item (cats fi.insumoId) fi.fase = alvo
            ∧ fi.insumoId = j
         then quantizeDec 4 (fi.quantidade * ok) else 0)
        + fichaDeltaFase cats alvo ok rest j := by
  simp only [fichaDeltaFase, List.filter_cons, Bool.and_eq_true,
    decide_eq_true_eq]
  by_cases h : _resolver_fase_item (cats fi.insumoId) fi.fase = alvo
      ∧ fi.insumoId = j
  · rw [if_pos h, if_pos h, List.map_cons, List.sum_cons]
  · rw [if_neg h, if_neg h, zero_add]

lemma issueFicha_ok (alvo obs : String) (cid rid : Option Nat) (ok : ℚ) :
    ∀ (l : List FichaTecnicaItem) (w w' : World),
    issueFicha alvo obs cid rid ok w l = .ok w' →
    (∀ j, (w'.insumos j).estoque_atual
        = (w.insumos j).estoque_atual - fichaDeltaFase (catOf w) alvo ok l j ∧
      (w'.insumos j).custo_medio = (w.insumos j).custo_medio ∧
      (w'.insumos j).categoriaNome = (w.insumos j).categoriaNome ∧
      (w'.insumos j).id = (w.insumos j).id) ∧
    w'.variacoes = w.variacoes ∧
    w'.costureiras = w.costureiras ∧
    w'.pagamento = w.pagamento ∧
    ∃ ms, w'.movimentos = w.movimentos ++ ms
  | [], w, w', h => by
      simp only [issueFicha, Except.ok.injEq] at h
      subst h
      exact ⟨fun j => ⟨by rw [fichaDeltaFase_nil, sub_zero], rfl, rfl, rfl⟩,
        rfl, rfl, rfl, [], by simp⟩
  | fi :: rest, w, w', h => by
      simp only [issueFicha] at h
      by_cases hf : _resolver_fase_item
          ((w.insumos fi.insumoId).categoriaNome) fi.fase ≠ alvo
      · rw [if_pos hf] at h
        obtain ⟨IHi, IHv, IHc, IHp, ms, IHm⟩ :=
          issueFicha_ok alvo obs cid rid ok rest w w' h
        refine ⟨?_, IHv, IHc, IHp, ms, IHm⟩
        intro j
        obtain ⟨e1, e2, e3, e4⟩ := IHi j
        refine ⟨?_, e2, e3, e4⟩
        have hcond : ¬ (_resolver_fase_item (catOf w fi.insumoId) fi.fase
            = alvo ∧ fi.insumoId = j) := fun hc => hf hc.1
        rw [e1, fichaDeltaFase_cons, if_neg hcond, zero_add]
      · rw [if_neg hf] at h
        push_neg at hf
        rcases hs : saidaW w fi.insumoId (quantizeDec 4 (fi.quantidade * ok))
            obs cid rid with e | w1
        · rw [hs] at h
          exact Except.noConfusion h
        · rw [hs] at h
          obtain ⟨HSi, HSv, HSc, HSp, m, HSm, _⟩ :=
            saidaW_ok w fi.insumoId (quantizeDec 4 (fi.quantidade * ok))
              obs cid rid w1 hs
          obtain ⟨IHi, IHv, IHc, IHp, ms, IHm⟩ :=
            issueFicha_ok alvo obs cid rid ok rest w1 w' h
          have hcat : catOf w1 = catOf w := funext fun i => (HSi i).2.2.1
          refine ⟨?_, IHv.trans HSv, IHc.trans HSc, IHp.trans HSp,
            m :: ms, ?_⟩
          · intro j
            obtain ⟨e1, e2, e3, e4⟩ := IHi j
            obtain ⟨f1, f2, f3, f4⟩ := HSi j
            refine ⟨?_, e2.trans f2, e3.trans f3, e4.trans f4⟩
            rw [e1, hcat, f1, fichaDeltaFase_cons]
            by_cases hj : fi.insumoId = j
            · have hcond : _resolver_fase_item (catOf w fi.insumoId) fi.fase
                  = alvo ∧ fi.insumoId = j := ⟨hf, hj⟩
              rw [if_pos hj.symm, if_pos hcond]
              ring
            · have hcond : ¬ (_resolver_fase_item (catOf w fi.insumoId) fi.fase
                  = alvo ∧ fi.insumoId = j) := fun hc => hj hc.2
              rw [if_neg (show ¬ j = fi.insumoId from fun hc => hj hc.symm),
                if_neg hcond]
              ring
          · rw [IHm, HSm]
            simp

lemma totalPagto_nil (c : Costureira) (tipo : String) :
    totalPagto c tipo [] = 0 := rfl

lemma totalPagto_cons_nonpos (c : Costureira) (tipo : String)
    (it : RemessaItem) (rest : List RemessaItem) (h : it.qtd_ok ≤ 0) :
    totalPagto c tipo (it :: rest) = totalPagto c tipo rest := by
  simp [totalPagto, List.filter_cons, not_lt.mpr h]

lemma totalPagto_cons_pos (c : Costureira) (tipo : String)
    (it : RemessaItem) (rest : List RemessaItem) (h : 0 < it.qtd_ok) :
    totalPagto c tipo (it :: rest)
      = preco_unitario_efetivo it c tipo * it.qtd_ok
        + totalPagto c tipo rest := by
  simp [totalPagto, List.filter_cons, h]

lemma itensDelta_nil (fichas : Nat → List FichaTecnicaItem)
    (cats : Nat → String) (tipo : String) (j : Nat) :
    itensDelta fichas cats tipo [] j = 0 := by
  by_cases h : tipo = "CORTE" ∨ tipo = "COSTURA" <;> simp [itensDelta, h]

lemma itensDelta_other (fichas : Nat → List FichaTecnicaItem)
    (cats : Nat → String) (tipo : String) (l : List RemessaItem) (j : Nat)
    (h : ¬ (tipo = "CORTE" ∨ tipo = "COSTURA")) :
    itensDelta fichas cats tipo l j = 0 := by
  simp [itensDelta, h]

lemma itensDelta_cons_nonpos (fichas : Nat → List FichaTecnicaItem)
    (cats : Nat → String) (tipo : String) (it : RemessaItem)
    (rest : List RemessaItem) (j : Nat) (h : it.qtd_ok ≤ 0) :
    itensDelta fichas cats tipo (it :: rest) j
      = itensDelta fichas cats tipo rest j := by
  by_cases ht : tipo = "CORTE" ∨ tipo = "COSTURA" <;>
    simp [itensDelta, ht, List.filter_cons, not_lt.mpr h]

lemma itensDelta_cons_pos (fichas : Nat → List FichaTecnicaItem)
    (cats : Nat → String) (tipo : String) (it : RemessaItem)
    (rest : List RemessaItem) (j : Nat) (h : 0 < it.qtd_ok)
    (ht : tipo = "CORTE" ∨ tipo = "COSTURA") :
    itensDelta fichas cats tipo (it :: rest) j
      = fichaDeltaFase cats tipo it.qtd_ok (fichas it.variacaoId) j
        + itensDelta fichas cats tipo rest j := by
  simp [itensDelta, ht, List.filter_cons, h]

lemma creditDelta_nil (tipo : String) (v : Nat) :
    creditDelta tipo [] v = 0 := by
  by_cases h : tipo = "COSTURA" <;> simp [creditDelta, h]

lemma creditDelta_other (tipo : String) (l : List RemessaItem) (v : Nat)
    (h : tipo ≠ "COSTURA") : creditDelta tipo l v = 0 := by
  simp [creditDelta, h]

lemma creditDelta_cons_nonpos (tipo : String) (it : RemessaItem)
    (rest : List RemessaItem) (v : Nat) (h : it.qtd_ok ≤ 0) :
    creditDelta tipo (it :: rest) v = creditDelta tipo rest v := by
  by_cases ht : tipo = "COSTURA" <;>
    simp [creditDelta, ht, List.filter_cons, not_lt.mpr h]

lemma creditDelta_cons_pos (it : RemessaItem) (rest : List RemessaItem)
    (v : Nat) (h : 0 < it.qtd_ok) :
    creditDelta "COSTURA" (it :: rest) v
      = (if it.variacaoId = v then it.qtd_ok else 0)
        + creditDelta "COSTURA" rest v := by
  simp only [creditDelta, if_pos rfl, List.filter_cons]
  by_cases hv : it.variacaoId = v
  · simp [h, hv]
  · simp [h, hv]

lemma creditStep_spec (cid rid : Nat) (numero : String) (it : RemessaItem)
    (w : World) :
    (creditStep cid rid numero it w).insumos = w.insumos ∧
    (creditStep cid rid numero it w).costureiras = w.costureiras ∧
    (creditStep cid rid numero it w).pagamento = w.pagamento ∧
    (∀ v, ((creditStep cid rid numero it w).variacoes v).estoque_atual
        = (w.variacoes v).estoque_atual
          + (if v = it.variacaoId then it.qtd_ok else 0) ∧
      ((creditStep cid rid numero it w).variacoes v).ficha
        = (w.variacoes v).ficha ∧
      ((creditStep cid rid numero it w).variacoes v).custo_unitario
        = (w.variacoes v).custo_unitario ∧
      ((creditStep cid rid numero it w).variacoes v).id
        = (w.variacoes v).id) ∧
    (creditStep cid rid numero it w).movimentos
      = w.movimentos ++ [creditMov (varIdOf w) (varCustoOf w) numero cid rid it] ∧
    fichaOf (creditStep cid rid numero it w) = fichaOf w ∧
    catOf (creditStep cid rid numero it w) = catOf w ∧
    varIdOf (creditStep cid rid numero it w) = varIdOf w ∧
    varCustoOf (creditStep cid rid numero it w) = varCustoOf w := by
  have hvar : ∀ v, ((creditStep cid rid numero it w).variacoes v).estoque_atual
      = (w.variacoes v).estoque_atual
        + (if v = it.variacaoId then it.qtd_ok else 0) ∧
      ((creditStep cid rid numero it w).variacoes v).ficha
        = (w.variacoes v).ficha ∧
      ((creditStep cid rid numero it w).variacoes v).custo_unitario
        = (w.variacoes v).custo_unitario ∧
      ((creditStep cid rid numero it w).variacoes v).id
        = (w.variacoes v).id := by
    intro v
    by_cases hv : v = it.variacaoId
    · subst hv
      simp [creditStep, updF]
    · simp [creditStep, updF, hv]
  refine ⟨rfl, rfl, rfl, hvar, rfl, ?_, rfl, ?_, ?_⟩
  · funext v
    simp only [fichaOf]
    exact (hvar v).2.1
  · funext v
    simp only [varIdOf]
    exact (hvar v).2.2.2
  · funext v
    simp only [varCustoOf]
    exact (hvar v).2.2.1

lemma processItens_ok (tipo : String) (cid rid : Nat) (numero : String) :
    ∀ (l : List RemessaItem) (w : World) (t t' : ℚ) (w' : World),
    processItens tipo cid rid numero w t l = .ok (w', t') →
    t' = t + totalPagto (w.costureiras cid) tipo l ∧
    (∀ j, (w'.insumos j).estoque_atual
        = (w.insumos j).estoque_atual
          - itensDelta (fichaOf w) (catOf w) tipo l j ∧
      (w'.insumos j).custo_medio = (w.insumos j).custo_medio ∧
      (w'.insumos j).categoriaNome = (w.insumos j).categoriaNome ∧
      (w'.insumos j).id = (w.insumos j).id) ∧
    (∀ v, (w'.variacoes v).estoque_atual
        = (w.variacoes v).estoque_atual + creditDelta tipo l v ∧
      (w'.variacoes v).ficha = (w.variacoes v).ficha ∧
      (w'.variacoes v).custo_unitario = (w.variacoes v).custo_unitario ∧
      (w'.variacoes v).id = (w.variacoes v).id) ∧
    w'.costureiras = w.costureiras ∧
    w'.pagamento = w.pagamento ∧
    (∃ ms, w'.movimentos = w.movimentos ++ ms) ∧
    (tipo = "COSTURA" → ∀ it ∈ l, 0 < it.qtd_ok →
      creditMov (varIdOf w) (varCustoOf w) numero cid rid it ∈ w'.movimentos) ∧
    (¬ (tipo = "CORTE" ∨ tipo = "COSTURA") → w' = w)
  | [], w, t, t', w', h => by
      simp only [processItens, Except.ok.injEq, Prod.mk.injEq] at h
      obtain ⟨rfl, rfl⟩ := h
      refine ⟨by rw [totalPagto_nil, add_zero], ?_, ?_, rfl, rfl,
        ⟨[], by simp⟩, ?_, fun _ => rfl⟩
      · intro j
        exact ⟨by rw [itensDelta_nil, sub_zero], rfl, rfl, rfl⟩
      · intro v
        exact ⟨by rw [creditDelta_nil, add_zero], rfl, rfl, rfl⟩
      · intro _ it hit
        exact absurd hit (List.not_mem_nil it)
  | it :: rest, w, t, t', w', h => by
      simp only [processItens] at h
      by_cases hok : it.qtd_ok ≤ 0
      · rw [if_pos hok] at h
        obtain ⟨IHt, IHi, IHvar, IHc, IHp, IHm, IHmem, IHeq⟩ :=
          processItens_ok tipo cid rid numero rest w t t' w' h
        refine ⟨by rw [IHt, totalPagto_cons_nonpos _ _ _ _ hok], ?_, ?_,
          IHc, IHp, IHm, ?_, IHeq⟩
        · intro j
          obtain ⟨e1, e2, e3, e4⟩ := IHi j
          exact ⟨by rw [e1, itensDelta_cons_nonpos _ _ _ _ _ _ hok],
            e2, e3, e4⟩
        · intro v
          obtain ⟨e1, e2, e3, e4⟩ := IHvar v
          exact ⟨by rw [e1, creditDelta_cons_nonpos _ _ _ _ hok], e2, e3, e4⟩
        · intro hco it' hit' hpos
          rcases List.mem_cons.mp hit' with rfl | hmem
          · exact absurd hpos (not_lt.mpr hok)
          · exact IHmem hco it' hmem hpos
      · rw [if_neg hok] at h
        push_neg at hok
        by_cases ht : tipo = "CORTE"
        · subst ht
          rw [if_pos rfl] at h
          rcases hs : issueFicha "CORTE" ("Corte " ++ numero) (some cid)
              (some rid) it.qtd_ok w (w.variacoes it.variacaoId).ficha
            with e | wa
          · rw [hs] at h
            exact Except.noConfusion h
          · rw [hs] at h
            obtain ⟨HSi, HSv, HSc, HSp, ms1, HSm⟩ :=
              issueFicha_ok "CORTE" ("Corte " ++ numero) (some cid)
                (some rid) it.qtd_ok (w.variacoes it.variacaoId).ficha w wa hs
            obtain ⟨IHt, IHi, IHvar, IHc, IHp, ⟨ms2, IHm⟩, IHmem, IHeq⟩ :=
              processItens_ok "CORTE" cid rid numero rest wa _ t' w' h
            have hcat : catOf wa = catOf w := funext fun i => (HSi i).2.2.1
            have hficha : fichaOf wa = fichaOf w := by
              funext v
              simp only [fichaOf, HSv]
            refine ⟨?_, ?_, ?_, IHc.trans HSc, IHp.trans HSp,
              ⟨ms1 ++ ms2, by rw [IHm, HSm, List.append_assoc]⟩, ?_, ?_⟩
            · rw [IHt, HSc, totalPagto_cons_pos _ _ _ _ hok]
              ring
            · intro j
              obtain ⟨e1, e2, e3, e4⟩ := IHi j
              obtain ⟨f1, f2, f3, f4⟩ := HSi j
              refine ⟨?_, e2.trans f2, e3.trans f3, e4.trans f4⟩
              rw [e1, hcat, hficha, f1,
                itensDelta_cons_pos _ _ _ _ _ _ hok (Or.inl rfl)]
              simp only [fichaOf, catOf]
              ring
            · intro v
              obtain ⟨e1, e2, e3, e4⟩ := IHvar v
              have g : wa.variacoes v = w.variacoes v := by rw [HSv]
              refine ⟨?_, e2.trans (by rw [g]), e3.trans (by rw [g]),
                e4.trans (by rw [g])⟩
              rw [e1, g, creditDelta_other _ _ _ (by decide),
                creditDelta_other _ _ _ (by decide)]
            · intro hco
              exact absurd hco (by decide)
            · intro hnot
              exact absurd (Or.inl rfl) hnot
        · by_cases hts : tipo = "COSTURA"
          · subst hts
            rw [if_neg ht, if_pos rfl] at h
            rcases hs : issueFicha "COSTURA" ("Costura " ++ numero) (some cid)
                (some rid) it.qtd_ok w (w.variacoes it.variacaoId).ficha
              with e | wa
            · rw [hs] at h
              exact Except.noConfusion h
            · rw [hs] at h
              obtain ⟨HSi, HSv, HSc, HSp, ms1, HSm⟩ :=
                issueFicha_ok "COSTURA" ("Costura " ++ numero) (some cid)
                  (some rid) it.qtd_ok (w.variacoes it.variacaoId).ficha w wa hs
              obtain ⟨CS1, CS2, CS3, CS4, CS5, CS6, CS7, CS8, CS9⟩ :=
                creditStep_spec cid rid numero it wa
              obtain ⟨IHt, IHi, IHvar, IHc, IHp, ⟨ms2, IHm⟩, IHmem, IHeq⟩ :=
                processItens_ok "COSTURA" cid rid numero rest
                  (creditStep cid rid numero it wa) _ t' w' h
              have hcat : catOf wa = catOf w := funext fun i => (HSi i).2.2.1
              have hficha : fichaOf wa = fichaOf w := by
                funext v
                simp only [fichaOf, HSv]
              have hvarId : varIdOf wa = varIdOf w := by
                funext v
                simp only [varIdOf, HSv]
              have hvarCusto : varCustoOf wa = varCustoOf w := by
                funext v
                simp only [varCustoOf, HSv]
              refine ⟨?_, ?_, ?_, IHc.trans (CS2.trans HSc),
                IHp.trans (CS3.trans HSp), ?_, ?_, ?_⟩
              · rw [IHt, CS2, HSc, totalPagto_cons_pos _ _ _ _ hok]
                ring
              · intro j
                obtain ⟨e1, e2, e3, e4⟩ := IHi j
                obtain ⟨f1, f2, f3, f4⟩ := HSi j
                rw [CS1] at e1 e2 e3 e4
                refine ⟨?_, e2.trans f2, e3.trans f3, e4.trans f4⟩
                rw [e1, CS6, hficha, CS7, hcat, f1,
                  itensDelta_cons_pos _ _ _ _ _ _ hok (Or.inr rfl)]
                simp only [fichaOf, catOf]
                ring
              · intro v
                obtain ⟨e1, e2, e3, e4⟩ := IHvar v
                obtain ⟨c1, c2, c3, c4⟩ := CS4 v
                have g : wa.variacoes v = w.variacoes v := by rw [HSv]
                refine ⟨?_, e2.trans (c2.trans (by rw [g])),
                  e3.trans (c3.trans (by rw [g])),
                  e4.trans (c4.trans (by rw [g]))⟩
                rw [e1, c1, g, creditDelta_cons_pos it rest v hok]
                by_cases hv : v = it.variacaoId
                · rw [if_pos hv, if_pos hv.symm]
                  ring
                · rw [if_neg hv,
                    if_neg (show ¬ it.variacaoId = v from fun hh => hv hh.symm)]
                  ring
              · refine ⟨ms1 ++ [creditMov (varIdOf wa) (varCustoOf wa) numero
                  cid rid it] ++ ms2, ?_⟩
                rw [IHm, CS5, HSm]
                simp [List.append_assoc]
              · intro _ it' hit' hpos
                rcases List.mem_cons.mp hit' with rfl | hmem
                · rw [IHm, CS5, hvarId, hvarCusto]
                  simp
                · have hmm := IHmem rfl it' hmem hpos
                  rw [CS8, CS9, hvarId, hvarCusto] at hmm
                  exact hmm
              · intro hnot
                exact absurd (Or.inr rfl) hnot
          · rw [if_neg ht, if_neg hts] at h
            have hnot : ¬ (tipo = "CORTE" ∨ tipo = "COSTURA") := by
              rintro (h1 | h2)
              · exact ht h1
              · exact hts h2
            obtain ⟨IHt, IHi, IHvar, IHc, IHp, IHm, IHmem, IHeq⟩ :=
              processItens_ok tipo cid rid numero rest w _ t' w' h
            have hww : w' = w := IHeq hnot
            refine ⟨?_, ?_, ?_, IHc, IHp, IHm, ?_, fun _ => hww⟩
            · rw [IHt, totalPagto_cons_pos _ _ _ _ hok]
              ring
            · intro j
              obtain ⟨e1, e2, e3, e4⟩ := IHi j
              refine ⟨?_, e2, e3, e4⟩
              rw [e1, itensDelta_other _ _ _ _ _ hnot,
                itensDelta_other _ _ _ _ _ hnot]
            · intro v
              obtain ⟨e1, e2, e3, e4⟩ := IHvar v
              have hcs : tipo ≠ "COSTURA" := hts
              refine ⟨?_, e2, e3, e4⟩
              rw [e1, creditDelta_other _ _ _ hcs, creditDelta_other _ _ _ hcs]
            · intro hco
              exact absurd hco hts

lemma finalizar_ok_spec (r : Remessa) (w : World) (now : Nat) (s : Bool)
    (w' : World) (r' : Remessa) (p : Option PagamentoCostureira)
    (h : r.finalizar_recebimento w now s = .ok (w', r', p)) :
    r' = Remessa.atualizar_status_por_itens
      { r with recebido_em :=
          if s ∧ r.recebido_em = none then some now else r.recebido_em } ∧
    (∀ j, (w'.insumos j).estoque_atual
        = (w.insumos j).estoque_atual
          - itensDelta (fichaOf w) (catOf w) r.tipo r.itens j ∧
      (w'.insumos j).custo_medio = (w.insumos j).custo_medio ∧
      (w'.insumos j).categoriaNome = (w.insumos j).categoriaNome ∧
      (w'.insumos j).id = (w.insumos j).id) ∧
    (∀ v, (w'.variacoes v).estoque_atual
        = (w.variacoes v).estoque_atual + creditDelta r.tipo r.itens v ∧
      (w'.variacoes v).ficha = (w.variacoes v).ficha ∧
      (w'.variacoes v).custo_unitario = (w.variacoes v).custo_unitario ∧
      (w'.variacoes v).id = (w.variacoes v).id) ∧
    w'.costureiras = w.costureiras ∧
    (p = if 0 < totalPagto (w.costureiras r.costureiraId) r.tipo r.itens
      then some ⟨r.costureiraId,
        quantizeDec 2 (totalPagto (w.costureiras r.costureiraId) r.tipo r.itens),
        "PENDENTE"⟩
      else none) ∧
    (w'.pagamento
      = if 0 < totalPagto (w.costureiras r.costureiraId) r.tipo r.itens
      then some ⟨r.costureiraId,
        quantizeDec 2 (totalPagto (w.costureiras r.costureiraId) r.tipo r.itens),
        "PENDENTE"⟩
      else w.pagamento) ∧
    (∃ ms, w'.movimentos = w.movimentos ++ ms) ∧
    (r.tipo = "COSTURA" → ∀ it ∈ r.itens, 0 < it.qtd_ok →
      creditMov (varIdOf w) (varCustoOf w) r.numero r.costureiraId r.id it
        ∈ w'.movimentos) ∧
    (¬ (r.tipo = "CORTE" ∨ r.tipo = "COSTURA") →
      w'.insumos = w.insumos ∧ w'.variacoes = w.variacoes ∧
      w'.movimentos = w.movimentos) := by
  simp only [Remessa.finalizar_recebimento] at h
  rcases hp : processItens r.tipo r.costureiraId r.id r.numero w 0 r.itens
    with e | ⟨w1, total⟩
  · rw [hp] at h
    exact Except.noConfusion h
  · rw [hp] at h
    dsimp only [] at h
    obtain ⟨Pt, Pi, Pv, Pc, Pp, Pm, Pmem, Peq⟩ :=
      processItens_ok r.tipo r.costureiraId r.id r.numero r.itens w 0 total w1 hp
    rw [zero_add] at Pt
    subst Pt
    by_cases hT : 0 < totalPagto (w.costureiras r.costureiraId) r.tipo r.itens
    · rw [if_pos hT] at h
      simp only [Except.ok.injEq, Prod.mk.injEq] at h
      obtain ⟨rfl, rfl, rfl⟩ := h
      refine ⟨rfl, Pi, Pv, Pc, by rw [if_pos hT], by rw [if_pos hT], Pm,
        Pmem, ?_⟩
      intro hnot
      have hww : w1 = w := Peq hnot
      subst hww
      exact ⟨rfl, rfl, rfl⟩
    · rw [if_neg hT] at h
      simp only [Except.ok.injEq, Prod.mk.injEq] at h
      obtain ⟨rfl, rfl, rfl⟩ := h
      refine ⟨rfl, Pi, Pv, Pc, by rw [if_neg hT], by rw [if_neg hT]; exact Pp,
        Pm, Pmem, ?_⟩
      intro hnot
      have hww : w1 = w := Peq hnot
      subst hww
      exact ⟨rfl, rfl, rfl⟩

/-- C1: a successful FinalizeReceipt processes exactly the lines with
positive ok.  The returned payment is the sum over those lines of
(override if nonzero, else the costureira base price for the remessa type)
times ok, quantized to 2 decimals and upserted with status PENDENTE (none
when the total is not positive); every insumo loses exactly the
itensDelta amount (the 4-decimal quantized quantity-per-unit times ok summed
over the BOM entries of the line variants whose resolved phase equals the
CORTE or COSTURA remessa type, zero for CORRECAO); every variant gains the
creditDelta amount (its lines ok quantities for COSTURA, zero otherwise)
with a credit movement tagged to the remessa and costureira; for a CORRECAO
remessa no insumo, variant or movement changes at all; and the resulting
status is recomputed from the unchanged lines and the received timestamp. -/
theorem finalizar_recebimento_spec (w : World) (r : Remessa) (now : Nat)
    (s : Bool) (hok : isOkE (r.finalizar_recebimento w now s) = true) :
    resRemessa r (r.finalizar_recebimento w now s)
      = Remessa.atualizar_status_por_itens
        { r with recebido_em :=
            if s ∧ r.recebido_em = none then some now else r.recebido_em } ∧
    (∀ j, ((resWorld w (r.finalizar_recebimento w now s)).insumos j).estoque_atual
        = (w.insumos j).estoque_atual
          - itensDelta (fichaOf w) (catOf w) r.tipo r.itens j) ∧
    (∀ v, ((resWorld w (r.finalizar_recebimento w now s)).variacoes v).estoque_atual
        = (w.variacoes v).estoque_atual + creditDelta r.tipo r.itens v) ∧
    (resPagamento (r.finalizar_recebimento w now s)
      = if 0 < totalPagto (w.costureiras r.costureiraId) r.tipo r.itens
      then some ⟨r.costureiraId,
        quantizeDec 2 (totalPagto (w.costureiras r.costureiraId) r.tipo r.itens),
        "PENDENTE"⟩
      else none) ∧
    (r.tipo = "COSTURA" → ∀ it ∈ r.itens, 0 < it.qtd_ok →
      creditMov (varIdOf w) (varCustoOf w) r.numero r.costureiraId r.id it
        ∈ (resWorld w (r.finalizar_recebimento w now s)).movimentos) ∧
    (¬ (r.tipo = "CORTE" ∨ r.tipo = "COSTURA") →
      (resWorld w (r.finalizar_recebimento w now s)).insumos = w.insumos ∧
      (resWorld w (r.finalizar_recebimento w now s)).variacoes = w.variacoes ∧
      (resWorld w (r.finalizar_recebimento w now s)).movimentos
        = w.movimentos) := by
  rcases hres : r.finalizar_recebimento w now s with e | ⟨w', r', p⟩
  · rw [hres] at hok
    exact absurd hok (by simp [isOkE])
  · obtain ⟨H1, H2, H3, _, H5, _, _, H8, H9⟩ :=
      finalizar_ok_spec r w now s w' r' p hres
    simp only [resWorld, resRemessa, resPagamento]
    exact ⟨H1, fun j => (H2 j).1, fun v => (H3 v).1, H5, H8, H9⟩

/-- Witness for finalizar_recebimento_spec at the concrete C1 example: a
CORTE shipment with one line (planned 10, ok 8, loss 1, missing 1,
returned 0) finalizes with line balance 0, status CONCLUIDO, a received
timestamp, 4 units of fabric issued (96 left), thread and variant stock
untouched, and a PENDENTE payment of 8 times the cut price 3. -/
theorem finalizar_recebimento_spec_witness :
    isOkE (exRemessaCorte.finalizar_recebimento exWorldR 5 true) = true ∧
    (resRemessa exRemessaCorte
      (exRemessaCorte.finalizar_recebimento exWorldR 5 true)).status
      = "CONCLUIDO" ∧
    (resRemessa exRemessaCorte
      (exRemessaCorte.finalizar_recebimento exWorldR 5 true)).recebido_em
      = some 5 ∧
    RemessaItem.saldo ⟨4, 10, 8, 1, 1, 0, 0⟩ = 0 ∧
    ((resWorld exWorldR
      (exRemessaCorte.finalizar_recebimento exWorldR 5 true)).insumos 1).estoque_atual
      = 96 ∧
    ((resWorld exWorldR
      (exRemessaCorte.finalizar_recebimento exWorldR 5 true)).insumos 2).estoque_atual
      = 50 ∧
    ((resWorld exWorldR
      (exRemessaCorte.finalizar_recebimento exWorldR 5 true)).variacoes 4).estoque_atual
      = 0 ∧
    resPagamento (exRemessaCorte.finalizar_recebimento exWorldR 5 true)
      = some ⟨1, 24, "PENDENTE"⟩ := by
  have h := finalizar_recebimento_spec exWorldR exRemessaCorte 5 true (by decide)
  refine ⟨by decide, by decide, by decide, by decide, ?_, by decide, by decide,
    ?_⟩
  · exact ((h.2.1) 1).trans (by decide)
  · exact h.2.2.2.1.trans (by decide)

/-- Counterexample to C2: re-finalizing does not preserve a PAID status.
With the CORRECAO shipment whose stored payment is PAGO with the same
amount 10, finalizar_recebimento resets the stored status to PENDENTE. -/
theorem refinalizar_paid_counterexample :
    exWorldPaid.pagamento = some ⟨1, 10, "PAGO"⟩ ∧
    (resWorld exWorldPaid
      (exRemessaCorrecao.finalizar_recebimento exWorldPaid 7 true)).pagamento
      = some ⟨1, 10, "PENDENTE"⟩ ∧
    "PENDENTE" ≠ "PAGO" := by
  refine ⟨by decide, by decide, by decide⟩

/-- C2 (amended): finalizing a shipment twice with unchanged lines, marking
the payment PAID in between, recomputes the same payment on the single
payment row keyed by the shipment (returning none when the total is not
positive) and resets the stored status to PENDENTE even though it was PAGO;
and the physical side effects repeat: every insumo loses the same quantity
again and every variant is credited the same quantity again. -/
theorem refinalizar_spec (w : World) (r : Remessa) (now now' : Nat)
    (s s' : Bool)
    (h1 : isOkE (r.finalizar_recebimento w now s) = true)
    (h2 : isOkE ((resRemessa r (r.finalizar_recebimento w now s)).finalizar_recebimento
      (marcarPago (resWorld w (r.finalizar_recebimento w now s))) now' s')
      = true) :
    resPagamento ((resRemessa r (r.finalizar_recebimento w now s)).finalizar_recebimento
        (marcarPago (resWorld w (r.finalizar_recebimento w now s))) now' s')
      = resPagamento (r.finalizar_recebimento w now s) ∧
    (0 < totalPagto (w.costureiras r.costureiraId) r.tipo r.itens →
      (resWorld w (r.finalizar_recebimento w now s)).pagamento
        = some ⟨r.costureiraId,
          quantizeDec 2 (totalPagto (w.costureiras r.costureiraId) r.tipo r.itens),
          "PENDENTE"⟩ ∧
      (marcarPago (resWorld w (r.finalizar_recebimento w now s))).pagamento
        = some ⟨r.costureiraId,
          quantizeDec 2 (totalPagto (w.costureiras r.costureiraId) r.tipo r.itens),
          "PAGO"⟩ ∧
      (resWorld (marcarPago (resWorld w (r.finalizar_recebimento w now s)))
        ((resRemessa r (r.finalizar_recebimento w now s)).finalizar_recebimento
          (marcarPago (resWorld w (r.finalizar_recebimento w now s))) now' s')).pagamento
        = some ⟨r.costureiraId,
          quantizeDec 2 (totalPagto (w.costureiras r.costureiraId) r.tipo r.itens),
          "PENDENTE"⟩) ∧
    (¬ 0 < totalPagto (w.costureiras r.costureiraId) r.tipo r.itens →
      resPagamento ((resRemessa r (r.finalizar_recebimento w now s)).finalizar_recebimento
        (marcarPago (resWorld w (r.finalizar_recebimento w now s))) now' s')
        = none) ∧
    (∀ j, (w.insumos j).estoque_atual
        - ((resWorld w (r.finalizar_recebimento w now s)).insumos j).estoque_atual
      = ((resWorld w (r.finalizar_recebimento w now s)).insumos j).estoque_atual
        - ((resWorld (marcarPago (resWorld w (r.finalizar_recebimento w now s)))
            ((resRemessa r (r.finalizar_recebimento w now s)).finalizar_recebimento
              (marcarPago (resWorld w (r.finalizar_recebimento w now s))) now' s')).insumos j).estoque_atual) ∧
    (∀ v, ((resWorld w (r.finalizar_recebimento w now s)).variacoes v).estoque_atual
        - (w.variacoes v).estoque_atual
      = ((resWorld (marcarPago (resWorld w (r.finalizar_recebimento w now s)))
            ((resRemessa r (r.finalizar_recebimento w now s)).finalizar_recebimento
              (marcarPago (resWorld w (r.finalizar_recebimento w now s))) now' s')).variacoes v).estoque_atual
        - ((resWorld w (r.finalizar_recebimento w now s)).variacoes v).estoque_atual) := by
  rcases e1h : r.finalizar_recebimento w now s with e | ⟨w1, r1, p1⟩
  · rw [e1h] at h1
    exact absurd h1 (by simp [isOkE])
  · obtain ⟨J1, J2, J3, J4, J5, J6, J7, J8, J9⟩ :=
      finalizar_ok_spec r w now s w1 r1 p1 e1h
    rw [e1h] at h2
    simp only [resWorld, resRemessa, resPagamento] at h2 ⊢
    have hitens : r1.itens = r.itens := by rw [J1]; rfl
    have htipo : r1.tipo = r.tipo := by rw [J1]; rfl
    have hcost : r1.costureiraId = r.costureiraId := by rw [J1]; rfl
    have hid : r1.id = r.id := by rw [J1]; rfl
    have hnum : r1.numero = r.numero := by rw [J1]; rfl
    have hcat1 : catOf w1 = catOf w := funext fun i => (J2 i).2.2.1
    have hficha1 : fichaOf w1 = fichaOf w := funext fun v => (J3 v).2.1
    rcases e2h : r1.finalizar_recebimento (marcarPago w1) now' s'
      with e | ⟨w2, r2, p2⟩
    · rw [e2h] at h2
      exact absurd h2 (by simp [isOkE])
    · obtain ⟨K1, K2, K3, K4, K5, K6, K7, K8, K9⟩ :=
        finalizar_ok_spec r1 (marcarPago w1) now' s' w2 r2 p2 e2h
      simp only [resWorld, resRemessa, resPagamento]
      have hmc : (marcarPago w1).costureiras = w1.costureiras := rfl
      have hmi : (marcarPago w1).insumos = w1.insumos := rfl
      have hmv : (marcarPago w1).variacoes = w1.variacoes := rfl
      have hcatm : catOf (marcarPago w1) = catOf w1 := rfl
      have hficham : fichaOf (marcarPago w1) = fichaOf w1 := rfl
      have hT2 : totalPagto ((marcarPago w1).costureiras r1.costureiraId)
          r1.tipo r1.itens
          = totalPagto (w.costureiras r.costureiraId) r.tipo r.itens := by
        rw [hmc, hitens, htipo, hcost, J4]
      have hD2 : ∀ j, itensDelta (fichaOf (marcarPago w1)) (catOf (marcarPago w1))
          r1.tipo r1.itens j
          = itensDelta (fichaOf w) (catOf w) r.tipo r.itens j := by
        intro j
        rw [hficham, hcatm, hficha1, hcat1, hitens, htipo]
      have hC2 : ∀ v, creditDelta r1.tipo r1.itens v = creditDelta r.tipo r.itens v := by
        intro v
        rw [hitens, htipo]
      refine ⟨?_, ?_, ?_, ?_, ?_⟩
      · rw [K5, J5, hT2, hcost]
      · intro hT
        refine ⟨?_, ?_, ?_⟩
        · rw [J6, if_pos hT]
        · rw [marcarPago, J6, if_pos hT]
          rfl
        · rw [K6, hT2, if_pos hT, hcost]
      · intro hT
        rw [K5, hT2, if_neg hT]
      · intro j
        rw [(K2 j).1, hD2 j, hmi, (J2 j).1]
        ring
      · intro v
        rw [(K3 v).1, hC2 v, hmv, (J3 v).1]
        ring

/-- Witness for refinalizar_spec at a concrete input: the COSTURA shipment
exRemessaCostura pays 40 on each finalization; after finalizing, marking
PAGO, and finalizing again, the stored payment is PENDENTE with the same
amount 40, thread stock went 100 to 92 to 84 and variant stock 0 to 8 to 16. -/
theorem refinalizar_spec_witness :
    ((exSewW1.insumos 2).estoque_atual = 92) ∧
    ((exSewW1.variacoes 4).estoque_atual = 8) ∧
    (marcarPago exSewW1).pagamento = some ⟨1, 40, "PAGO"⟩ ∧
    ((exSewW2.insumos 2).estoque_atual = 84) ∧
    ((exSewW2.variacoes 4).estoque_atual = 16) ∧
    exSewW2.pagamento = some ⟨1, 40, "PENDENTE"⟩ := by
  have h := refinalizar_spec exWorldSew exRemessaCostura 5 6 true true
    (by decide) (by decide)
  refine ⟨by decide, by decide, ?_, by decide, by decide, ?_⟩
  · exact (h.2.1 (by decide)).2.1.trans (by decide)
  · exact (h.2.1 (by decide)).2.2.trans (by decide)

end Camisas
